import Mathlib

/-!
Verification development for the text-decoration canvas app in
`src/src/App.tsx` (a React component rendering styled text onto an
HTML canvas and exporting it as a PNG).

The rendering pipeline (`drawText`, `downloadImage`) is embedded as a
pure function from the component's styling state to the list of paint
operations issued against the 2d canvas context.  A paint operation
records exactly the slice of the context state that the corresponding
canvas primitive consumes (`fillText` reads the fill style, shadow
state, font and alignment; `strokeText` additionally reads the stroke
style, line width, line join and miter limit).  Machine floats are
modelled as exact numbers: the component's scalar state as `ℚ`, and
the gradient-axis geometry (which goes through `Math.cos`/`Math.sin`)
as `ℝ`.  `ctx.measureText` depends on the host font stack, so text
measurement is an explicit functional parameter.
-/

namespace TitleGen

/-- A canvas surface: its `width`/`height` attributes (the preview canvas is
800×450, the hidden download canvas 1920×1080). -/
structure Surface where
  width : ℚ
  height : ℚ
deriving DecidableEq

/-- The `textColorType` state: `'solid' | 'gradient'`. -/
inductive ColorType
  | solid
  | gradient
deriving DecidableEq

/-- The component's styling state (the `useState` fields of
`TextDecoratorApp` that the rendering pipeline reads). -/
structure Config where
  text : String
  fontSize : ℚ
  fontFamily : String
  textColorType : ColorType
  textColor : String
  textGradientStart : String
  textGradientEnd : String
  textGradientAngle : ℚ
  border1Color : String
  border1Width : ℚ
  border2Color : String
  border2Width : ℚ
  shadowEnabled : Bool
  shadowOffsetX : ℚ
  shadowOffsetY : ℚ
  shadowBlur : ℚ
  shadowOpacity : ℚ
deriving DecidableEq

/-- A canvas shadow color.  The context's initial shadow color and the
string `'transparent'` written by the reset step both denote the fully
transparent color and are modelled as `.transparent`; the shadow pass
sets `rgba(0, 0, 0, opacity)`, modelled structurally as `.rgba`. -/
inductive ShadowColor
  | transparent
  | rgba (r g b : ℕ) (a : ℚ)
deriving DecidableEq

/-- The shadow-related slice of the 2d context state. -/
structure Shadow where
  color : ShadowColor
  blur : ℚ
  offsetX : ℚ
  offsetY : ℚ
deriving DecidableEq

/-- The shadow state in which the shadow effect is disabled: transparent
color, zero blur, zero offsets (the context's initial state, and the
state restored right after the shadow pass). -/
def Shadow.disabled : Shadow :=
  { color := ShadowColor.transparent, blur := 0, offsetX := 0, offsetY := 0 }

/-- A canvas fill style: a plain CSS color string, or a linear gradient
with its axis endpoints and its color stops (offset, color). -/
inductive FillStyle
  | solid (color : String)
  | gradient (x1 y1 x2 y2 : ℝ) (stops : List (ℚ × String))

/-- The context state consumed by a `fillText` call. -/
structure FillEv where
  style : FillStyle
  shadow : Shadow
  fontSizePx : ℚ
  fontFamily : String
  textAlign : String
  textBaseline : String
  x : ℚ
  y : ℚ
  text : String

/-- The context state consumed by a `strokeText` call. -/
structure StrokeEv where
  strokeStyle : String
  lineWidth : ℚ
  lineJoin : String
  miterLimit : ℚ
  shadow : Shadow
  fontSizePx : ℚ
  fontFamily : String
  textAlign : String
  textBaseline : String
  x : ℚ
  y : ℚ
  text : String

/-- One paint operation issued against the 2d context. -/
inductive PaintEvent
  | clearRect (x y w h : ℚ)
  | fill (e : FillEv)
  | stroke (e : StrokeEv)

/-- The mutable 2d-context state threaded through a render, with the
initial values the HTML canvas specification assigns to a fresh
context. -/
structure Ctx where
  fontSizePx : ℚ := 10
  fontFamily : String := "sans-serif"
  textAlign : String := "start"
  textBaseline : String := "alphabetic"
  lineJoin : String := "miter"
  miterLimit : ℚ := 10
  fillStyle : FillStyle := FillStyle.solid "#000000"
  strokeStyle : String := "#000000"
  lineWidth : ℚ := 1
  shadowColor : ShadowColor := ShadowColor.transparent
  shadowBlur : ℚ := 0
  shadowOffsetX : ℚ := 0
  shadowOffsetY : ℚ := 0

/-- The shadow slice of the current context state. -/
def Ctx.snapshotShadow (c : Ctx) : Shadow :=
  { color := c.shadowColor, blur := c.shadowBlur,
    offsetX := c.shadowOffsetX, offsetY := c.shadowOffsetY }

/-- The paint operation issued by `ctx.fillText(t, x, y)`. -/
def Ctx.fillTextEv (c : Ctx) (x y : ℚ) (t : String) : PaintEvent :=
  PaintEvent.fill
    { style := c.fillStyle, shadow := c.snapshotShadow,
      fontSizePx := c.fontSizePx, fontFamily := c.fontFamily,
      textAlign := c.textAlign, textBaseline := c.textBaseline,
      x := x, y := y, text := t }

/-- The paint operation issued by `ctx.strokeText(t, x, y)`. -/
def Ctx.strokeTextEv (c : Ctx) (x y : ℚ) (t : String) : PaintEvent :=
  PaintEvent.stroke
    { strokeStyle := c.strokeStyle, lineWidth := c.lineWidth,
      lineJoin := c.lineJoin, miterLimit := c.miterLimit,
      shadow := c.snapshotShadow,
      fontSizePx := c.fontSizePx, fontFamily := c.fontFamily,
      textAlign := c.textAlign, textBaseline := c.textBaseline,
      x := x, y := y, text := t }

/-- `ctx.measureText(text).width` for a context whose font is
`«size»px «family»`: measurement is host-dependent, so it is a
parameter of the model. -/
def MeasureFn : Type :=
  ℚ → String → String → ℝ

/-- `(textGradientAngle * Math.PI) / 180`. -/
noncomputable def angleRadOf (deg : ℚ) : ℝ :=
  (deg : ℝ) * Real.pi / 180

/-- `x1 = x - (textWidth / 2) * Math.cos(angleRad)`. -/
noncomputable def gradX1 (x : ℚ) (w θ : ℝ) : ℝ :=
  (x : ℝ) - w / 2 * Real.cos θ

/-- `y1 = y - (textHeight / 2) * Math.sin(angleRad)`. -/
noncomputable def gradY1 (y : ℚ) (h θ : ℝ) : ℝ :=
  (y : ℝ) - h / 2 * Real.sin θ

/-- `x2 = x + (textWidth / 2) * Math.cos(angleRad)`. -/
noncomputable def gradX2 (x : ℚ) (w θ : ℝ) : ℝ :=
  (x : ℝ) + w / 2 * Real.cos θ

/-- `y2 = y + (textHeight / 2) * Math.sin(angleRad)`. -/
noncomputable def gradY2 (y : ℚ) (h θ : ℝ) : ℝ :=
  (y : ℝ) + h / 2 * Real.sin θ

/-- The `drawText` function (App.tsx lines 219–293): renders onto the
preview canvas (no scale factor; every size parameter is used as-is).
`canvas` is `targetCanvas`/`canvasRef.current` (`none` when the ref is
null) and `ctxOk` records whether `canvas.getContext('2d')` returned a
context.  The result is the list of paint operations issued, `none`
when the function returned early.  The `document.fonts.load` await
does not touch the context and is not modelled. -/
noncomputable def drawTextModel (canvas : Option Surface) (ctxOk : Bool) (cfg : Config)
    (measure : MeasureFn) : Option (List PaintEvent) :=
  match canvas with
  | none => none
  | some canvas =>
    if ctxOk = false then none else
    let ev0 : List PaintEvent := [PaintEvent.clearRect 0 0 canvas.width canvas.height]
    let ctx : Ctx := {}
    let ctx := { ctx with fontSizePx := cfg.fontSize, fontFamily := cfg.fontFamily }
    let ctx := { ctx with textAlign := "center" }
    let ctx := { ctx with textBaseline := "middle" }
    let ctx := { ctx with lineJoin := "round" }
    let ctx := { ctx with miterLimit := 2 }
    let x := canvas.width / 2
    let y := canvas.height / 2
    -- 影 (shadow pass)
    let ctx := if cfg.shadowEnabled then
        { ctx with shadowColor := ShadowColor.rgba 0 0 0 cfg.shadowOpacity,
                   shadowBlur := cfg.shadowBlur,
                   shadowOffsetX := cfg.shadowOffsetX,
                   shadowOffsetY := cfg.shadowOffsetY,
                   fillStyle := FillStyle.solid "black" }
      else ctx
    let evShadow : List PaintEvent :=
      if cfg.shadowEnabled then [ctx.fillTextEv x y cfg.text] else []
    let ctx := if cfg.shadowEnabled then
        { ctx with shadowColor := ShadowColor.transparent,
                   shadowBlur := 0, shadowOffsetX := 0, shadowOffsetY := 0 }
      else ctx
    -- 外側の縁 (outer stroke, border2)
    let ctx := if cfg.border2Width > 0 then
        { ctx with strokeStyle := cfg.border2Color, lineWidth := cfg.border2Width * 2 }
      else ctx
    let evB2 : List PaintEvent :=
      if cfg.border2Width > 0 then [ctx.strokeTextEv x y cfg.text] else []
    -- 内側の縁 (inner stroke, border1)
    let ctx := if cfg.border1Width > 0 then
        { ctx with strokeStyle := cfg.border1Color, lineWidth := cfg.border1Width * 2 }
      else ctx
    let evB1 : List PaintEvent :=
      if cfg.border1Width > 0 then [ctx.strokeTextEv x y cfg.text] else []
    -- テキスト本体 (fill pass; gradient geometry per source lines 274-291)
    let ctx := if cfg.textColorType = ColorType.gradient then
        let textHeight : ℝ := (cfg.fontSize : ℝ)
        let textWidth : ℝ := measure cfg.fontSize cfg.fontFamily cfg.text
        let angleRad : ℝ := angleRadOf cfg.textGradientAngle
        let gradient : FillStyle := FillStyle.gradient
          (gradX1 x textWidth angleRad) (gradY1 y textHeight angleRad)
          (gradX2 x textWidth angleRad) (gradY2 y textHeight angleRad)
          [(0, cfg.textGradientStart), (1, cfg.textGradientEnd)]
        { ctx with fillStyle := gradient }
      else { ctx with fillStyle := FillStyle.solid cfg.textColor }
    some (ev0 ++ evShadow ++ evB2 ++ evB1 ++ [ctx.fillTextEv x y cfg.text])

/-- The `downloadImage` function (App.tsx lines 295–372): renders onto
the hidden download canvas, every size parameter multiplied by
`scale = downloadCanvas.width / canvasRef.current.width`, then encodes
the canvas as a PNG.  `downloadCanvas`/`previewCanvas` are `none` when
the corresponding ref is null; `ctxOk` records whether
`downloadCanvas.getContext('2d')` succeeded.  `some evs` means the
paint operations `evs` were issued and the PNG blob was handed to the
host for download; `none` means the function returned early: nothing
drawn, no artifact produced. -/
noncomputable def downloadImageModel (downloadCanvas : Option Surface) (ctxOk : Bool)
    (previewCanvas : Option Surface) (cfg : Config) (measure : MeasureFn) :
    Option (List PaintEvent) :=
  match downloadCanvas with
  | none => none
  | some dl =>
    if ctxOk = false then none else
    match previewCanvas with
    | none => none
    | some pv =>
      let ev0 : List PaintEvent := [PaintEvent.clearRect 0 0 dl.width dl.height]
      let scale := dl.width / pv.width
      let ctx : Ctx := {}
      let ctx := { ctx with fontSizePx := cfg.fontSize * scale, fontFamily := cfg.fontFamily }
      let ctx := { ctx with textAlign := "center" }
      let ctx := { ctx with textBaseline := "middle" }
      let ctx := { ctx with lineJoin := "round" }
      let ctx := { ctx with miterLimit := 2 }
      let x := dl.width / 2
      let y := dl.height / 2
      let ctx := if cfg.shadowEnabled then
          { ctx with shadowColor := ShadowColor.rgba 0 0 0 cfg.shadowOpacity,
                     shadowBlur := cfg.shadowBlur * scale,
                     shadowOffsetX := cfg.shadowOffsetX * scale,
                     shadowOffsetY := cfg.shadowOffsetY * scale,
                     fillStyle := FillStyle.solid "black" }
        else ctx
      let evShadow : List PaintEvent :=
        if cfg.shadowEnabled then [ctx.fillTextEv x y cfg.text] else []
      let ctx := if cfg.shadowEnabled then
          { ctx with shadowColor := ShadowColor.transparent,
                     shadowBlur := 0, shadowOffsetX := 0, shadowOffsetY := 0 }
        else ctx
      let ctx := if cfg.border2Width > 0 then
          { ctx with strokeStyle := cfg.border2Color,
                     lineWidth := cfg.border2Width * 2 * scale }
        else ctx
      let evB2 : List PaintEvent :=
        if cfg.border2Width > 0 then [ctx.strokeTextEv x y cfg.text] else []
      let ctx := if cfg.border1Width > 0 then
          { ctx with strokeStyle := cfg.border1Color,
                     lineWidth := cfg.border1Width * 2 * scale }
        else ctx
      let evB1 : List PaintEvent :=
        if cfg.border1Width > 0 then [ctx.strokeTextEv x y cfg.text] else []
      let ctx := if cfg.textColorType = ColorType.gradient then
          let textHeight : ℝ := ((cfg.fontSize * scale : ℚ) : ℝ)
          let textWidth : ℝ := measure (cfg.fontSize * scale) cfg.fontFamily cfg.text
          let angleRad : ℝ := angleRadOf cfg.textGradientAngle
          let gradient : FillStyle := FillStyle.gradient
            (gradX1 x textWidth angleRad) (gradY1 y textHeight angleRad)
            (gradX2 x textWidth angleRad) (gradY2 y textHeight angleRad)
            [(0, cfg.textGradientStart), (1, cfg.textGradientEnd)]
          { ctx with fillStyle := gradient }
        else { ctx with fillStyle := FillStyle.solid cfg.textColor }
      some (ev0 ++ evShadow ++ evB2 ++ evB1 ++ [ctx.fillTextEv x y cfg.text])

/-- The flat form of the paint-operation trace `drawText` issues on a
valid preview canvas: clear, then shadow pass (iff `shadowEnabled`),
then outer stroke (iff `border2Width > 0`), then inner stroke (iff
`border1Width > 0`), then the fill pass. -/
noncomputable def previewTrace (surf : Surface) (cfg : Config) (measure : MeasureFn) :
    List PaintEvent :=
  [PaintEvent.clearRect 0 0 surf.width surf.height]
  ++ (if cfg.shadowEnabled then
      [PaintEvent.fill
        { style := FillStyle.solid "black",
          shadow := { color := ShadowColor.rgba 0 0 0 cfg.shadowOpacity,
                      blur := cfg.shadowBlur, offsetX := cfg.shadowOffsetX,
                      offsetY := cfg.shadowOffsetY },
          fontSizePx := cfg.fontSize, fontFamily := cfg.fontFamily,
          textAlign := "center", textBaseline := "middle",
          x := surf.width / 2, y := surf.height / 2, text := cfg.text }] else [])
  ++ (if cfg.border2Width > 0 then
      [PaintEvent.stroke
        { strokeStyle := cfg.border2Color, lineWidth := cfg.border2Width * 2,
          lineJoin := "round", miterLimit := 2, shadow := Shadow.disabled,
          fontSizePx := cfg.fontSize, fontFamily := cfg.fontFamily,
          textAlign := "center", textBaseline := "middle",
          x := surf.width / 2, y := surf.height / 2, text := cfg.text }] else [])
  ++ (if cfg.border1Width > 0 then
      [PaintEvent.stroke
        { strokeStyle := cfg.border1Color, lineWidth := cfg.border1Width * 2,
          lineJoin := "round", miterLimit := 2, shadow := Shadow.disabled,
          fontSizePx := cfg.fontSize, fontFamily := cfg.fontFamily,
          textAlign := "center", textBaseline := "middle",
          x := surf.width / 2, y := surf.height / 2, text := cfg.text }] else [])
  ++ [PaintEvent.fill
      { style := if cfg.textColorType = ColorType.gradient then
            FillStyle.gradient
              (gradX1 (surf.width / 2) (measure cfg.fontSize cfg.fontFamily cfg.text)
                (angleRadOf cfg.textGradientAngle))
              (gradY1 (surf.height / 2) ((cfg.fontSize : ℝ))
                (angleRadOf cfg.textGradientAngle))
              (gradX2 (surf.width / 2) (measure cfg.fontSize cfg.fontFamily cfg.text)
                (angleRadOf cfg.textGradientAngle))
              (gradY2 (surf.height / 2) ((cfg.fontSize : ℝ))
                (angleRadOf cfg.textGradientAngle))
              [(0, cfg.textGradientStart), (1, cfg.textGradientEnd)]
          else FillStyle.solid cfg.textColor,
        shadow := Shadow.disabled,
        fontSizePx := cfg.fontSize, fontFamily := cfg.fontFamily,
        textAlign := "center", textBaseline := "middle",
        x := surf.width / 2, y := surf.height / 2, text := cfg.text }]

/-- The flat form of the paint-operation trace `downloadImage` issues on
a valid download canvas: the same pass sequence as `previewTrace`, with
every size-dependent parameter multiplied by
`scale = dl.width / pv.width`. -/
noncomputable def exportTrace (dl pv : Surface) (cfg : Config) (measure : MeasureFn) :
    List PaintEvent :=
  [PaintEvent.clearRect 0 0 dl.width dl.height]
  ++ (if cfg.shadowEnabled then
      [PaintEvent.fill
        { style := FillStyle.solid "black",
          shadow := { color := ShadowColor.rgba 0 0 0 cfg.shadowOpacity,
                      blur := cfg.shadowBlur * (dl.width / pv.width),
                      offsetX := cfg.shadowOffsetX * (dl.width / pv.width),
                      offsetY := cfg.shadowOffsetY * (dl.width / pv.width) },
          fontSizePx := cfg.fontSize * (dl.width / pv.width),
          fontFamily := cfg.fontFamily,
          textAlign := "center", textBaseline := "middle",
          x := dl.width / 2, y := dl.height / 2, text := cfg.text }] else [])
  ++ (if cfg.border2Width > 0 then
      [PaintEvent.stroke
        { strokeStyle := cfg.border2Color,
          lineWidth := cfg.border2Width * 2 * (dl.width / pv.width),
          lineJoin := "round", miterLimit := 2, shadow := Shadow.disabled,
          fontSizePx := cfg.fontSize * (dl.width / pv.width),
          fontFamily := cfg.fontFamily,
          textAlign := "center", textBaseline := "middle",
          x := dl.width / 2, y := dl.height / 2, text := cfg.text }] else [])
  ++ (if cfg.border1Width > 0 then
      [PaintEvent.stroke
        { strokeStyle := cfg.border1Color,
          lineWidth := cfg.border1Width * 2 * (dl.width / pv.width),
          lineJoin := "round", miterLimit := 2, shadow := Shadow.disabled,
          fontSizePx := cfg.fontSize * (dl.width / pv.width),
          fontFamily := cfg.fontFamily,
          textAlign := "center", textBaseline := "middle",
          x := dl.width / 2, y := dl.height / 2, text := cfg.text }] else [])
  ++ [PaintEvent.fill
      { style := if cfg.textColorType = ColorType.gradient then
            FillStyle.gradient
              (gradX1 (dl.width / 2)
                (measure (cfg.fontSize * (dl.width / pv.width)) cfg.fontFamily cfg.text)
                (angleRadOf cfg.textGradientAngle))
              (gradY1 (dl.height / 2) ((cfg.fontSize * (dl.width / pv.width) : ℚ) : ℝ)
                (angleRadOf cfg.textGradientAngle))
              (gradX2 (dl.width / 2)
                (measure (cfg.fontSize * (dl.width / pv.width)) cfg.fontFamily cfg.text)
                (angleRadOf cfg.textGradientAngle))
              (gradY2 (dl.height / 2) ((cfg.fontSize * (dl.width / pv.width) : ℚ) : ℝ)
                (angleRadOf cfg.textGradientAngle))
              [(0, cfg.textGradientStart), (1, cfg.textGradientEnd)]
          else FillStyle.solid cfg.textColor,
        shadow := Shadow.disabled,
        fontSizePx := cfg.fontSize * (dl.width / pv.width),
        fontFamily := cfg.fontFamily,
        textAlign := "center", textBaseline := "middle",
        x := dl.width / 2, y := dl.height / 2, text := cfg.text }]

/-- On a valid canvas and context, `drawText` issues exactly the flat
trace `previewTrace`. -/
theorem drawTextModel_eq_previewTrace (surf : Surface) (cfg : Config)
    (measure : MeasureFn) :
    drawTextModel (some surf) true cfg measure = some (previewTrace surf cfg measure) := by
  by_cases hs : cfg.shadowEnabled <;>
    by_cases h2 : cfg.border2Width > 0 <;>
      by_cases h1 : cfg.border1Width > 0 <;>
        by_cases hg : cfg.textColorType = ColorType.gradient <;>
          simp [drawTextModel, previewTrace, hs, h2, h1, hg,
            Ctx.fillTextEv, Ctx.strokeTextEv, Ctx.snapshotShadow, Shadow.disabled]

/-- On a valid download canvas, context and preview canvas,
`downloadImage` issues exactly the flat trace `exportTrace`. -/
theorem downloadImageModel_eq_exportTrace (dl pv : Surface) (cfg : Config)
    (measure : MeasureFn) :
    downloadImageModel (some dl) true (some pv) cfg measure
      = some (exportTrace dl pv cfg measure) := by
  by_cases hs : cfg.shadowEnabled <;>
    by_cases h2 : cfg.border2Width > 0 <;>
      by_cases h1 : cfg.border1Width > 0 <;>
        by_cases hg : cfg.textColorType = ColorType.gradient <;>
          simp [downloadImageModel, exportTrace, hs, h2, h1, hg,
            Ctx.fillTextEv, Ctx.strokeTextEv, Ctx.snapshotShadow, Shadow.disabled]

/-- The `PresetConfig` type (App.tsx lines 6–21) as `loadPreset`
consumes it: every field optional, since `loadPreset` guards every
field with an `!== undefined` check before applying it.  There is no
field for the text, the font size or the font family. -/
structure PresetConfig where
  textColor : Option String := none
  textColorType : Option ColorType := none
  textGradientStart : Option String := none
  textGradientEnd : Option String := none
  textGradientAngle : Option ℚ := none
  border1Color : Option String := none
  border1Width : Option ℚ := none
  border2Color : Option String := none
  border2Width : Option ℚ := none
  shadowEnabled : Option Bool := none
  shadowOffsetX : Option ℚ := none
  shadowOffsetY : Option ℚ := none
  shadowBlur : Option ℚ := none
  shadowOpacity : Option ℚ := none
deriving DecidableEq

/-- A named preset (App.tsx lines 23–26). -/
structure Preset where
  name : String
  config : PresetConfig
deriving DecidableEq

/-- `savePreset` (lines 374–396): snapshots the current styling state
into a preset (the early return on an empty prompt answer is the
caller's concern; the captured config is what is modelled).  The
text, font size and font family are not captured. -/
def savePreset (s : Config) (name : String) : Preset :=
  { name := name,
    config :=
      { textColor := some s.textColor,
        textColorType := some s.textColorType,
        textGradientStart := some s.textGradientStart,
        textGradientEnd := some s.textGradientEnd,
        textGradientAngle := some s.textGradientAngle,
        border1Color := some s.border1Color,
        border1Width := some s.border1Width,
        border2Color := some s.border2Color,
        border2Width := some s.border2Width,
        shadowEnabled := some s.shadowEnabled,
        shadowOffsetX := some s.shadowOffsetX,
        shadowOffsetY := some s.shadowOffsetY,
        shadowBlur := some s.shadowBlur,
        shadowOpacity := some s.shadowOpacity } }

/-- `if (c.textColor !== undefined) setTextColor(c.textColor)`. -/
def applyTextColor (c : PresetConfig) (s : Config) : Config :=
  match c.textColor with
  | some v => { s with textColor := v }
  | none => s

/-- `if (c.textColorType !== undefined) setTextColorType(c.textColorType)`. -/
def applyTextColorType (c : PresetConfig) (s : Config) : Config :=
  match c.textColorType with
  | some v => { s with textColorType := v }
  | none => s

/-- `if (c.textGradientStart !== undefined) setTextGradientStart(...)`. -/
def applyTextGradientStart (c : PresetConfig) (s : Config) : Config :=
  match c.textGradientStart with
  | some v => { s with textGradientStart := v }
  | none => s

/-- `if (c.textGradientEnd !== undefined) setTextGradientEnd(...)`. -/
def applyTextGradientEnd (c : PresetConfig) (s : Config) : Config :=
  match c.textGradientEnd with
  | some v => { s with textGradientEnd := v }
  | none => s

/-- `if (c.textGradientAngle !== undefined) setTextGradientAngle(...)`. -/
def applyTextGradientAngle (c : PresetConfig) (s : Config) : Config :=
  match c.textGradientAngle with
  | some v => { s with textGradientAngle := v }
  | none => s

/-- `if (c.border1Color !== undefined) setBorder1Color(...)`. -/
def applyBorder1Color (c : PresetConfig) (s : Config) : Config :=
  match c.border1Color with
  | some v => { s with border1Color := v }
  | none => s

/-- `if (c.border1Width !== undefined) setBorder1Width(...)`. -/
def applyBorder1Width (c : PresetConfig) (s : Config) : Config :=
  match c.border1Width with
  | some v => { s with border1Width := v }
  | none => s

/-- `if (c.border2Color !== undefined) setBorder2Color(...)`. -/
def applyBorder2Color (c : PresetConfig) (s : Config) : Config :=
  match c.border2Color with
  | some v => { s with border2Color := v }
  | none => s

/-- `if (c.border2Width !== undefined) setBorder2Width(...)`. -/
def applyBorder2Width (c : PresetConfig) (s : Config) : Config :=
  match c.border2Width with
  | some v => { s with border2Width := v }
  | none => s

/-- `if (c.shadowEnabled !== undefined) setShadowEnabled(...)`. -/
def applyShadowEnabled (c : PresetConfig) (s : Config) : Config :=
  match c.shadowEnabled with
  | some v => { s with shadowEnabled := v }
  | none => s

/-- `if (c.shadowOffsetX !== undefined) setShadowOffsetX(...)`. -/
def applyShadowOffsetX (c : PresetConfig) (s : Config) : Config :=
  match c.shadowOffsetX with
  | some v => { s with shadowOffsetX := v }
  | none => s

/-- `if (c.shadowOffsetY !== undefined) setShadowOffsetY(...)`. -/
def applyShadowOffsetY (c : PresetConfig) (s : Config) : Config :=
  match c.shadowOffsetY with
  | some v => { s with shadowOffsetY := v }
  | none => s

/-- `if (c.shadowBlur !== undefined) setShadowBlur(...)`. -/
def applyShadowBlur (c : PresetConfig) (s : Config) : Config :=
  match c.shadowBlur with
  | some v => { s with shadowBlur := v }
  | none => s

/-- `if (c.shadowOpacity !== undefined) setShadowOpacity(...)`. -/
def applyShadowOpacity (c : PresetConfig) (s : Config) : Config :=
  match c.shadowOpacity with
  | some v => { s with shadowOpacity := v }
  | none => s

/-- `loadPreset` (lines 398–414): applies each defined field of the
preset's config to the live state, in source order. -/
def loadPreset (p : Preset) (s : Config) : Config :=
  applyShadowOpacity p.config (applyShadowBlur p.config (applyShadowOffsetY p.config
    (applyShadowOffsetX p.config (applyShadowEnabled p.config (applyBorder2Width p.config
      (applyBorder2Color p.config (applyBorder1Width p.config (applyBorder1Color p.config
        (applyTextGradientAngle p.config (applyTextGradientEnd p.config
          (applyTextGradientStart p.config (applyTextColorType p.config
            (applyTextColor p.config s)))))))))))))

theorem applyTextColor_eq (c : PresetConfig) (s : Config) :
    applyTextColor c s = { s with textColor := c.textColor.getD s.textColor } := by
  cases h : c.textColor <;> simp [applyTextColor, h]

theorem applyTextColorType_eq (c : PresetConfig) (s : Config) :
    applyTextColorType c s = { s with textColorType := c.textColorType.getD s.textColorType } := by
  cases h : c.textColorType <;> simp [applyTextColorType, h]

theorem applyTextGradientStart_eq (c : PresetConfig) (s : Config) :
    applyTextGradientStart c s
      = { s with textGradientStart := c.textGradientStart.getD s.textGradientStart } := by
  cases h : c.textGradientStart <;> simp [applyTextGradientStart, h]

theorem applyTextGradientEnd_eq (c : PresetConfig) (s : Config) :
    applyTextGradientEnd c s
      = { s with textGradientEnd := c.textGradientEnd.getD s.textGradientEnd } := by
  cases h : c.textGradientEnd <;> simp [applyTextGradientEnd, h]

theorem applyTextGradientAngle_eq (c : PresetConfig) (s : Config) :
    applyTextGradientAngle c s
      = { s with textGradientAngle := c.textGradientAngle.getD s.textGradientAngle } := by
  cases h : c.textGradientAngle <;> simp [applyTextGradientAngle, h]

theorem applyBorder1Color_eq (c : PresetConfig) (s : Config) :
    applyBorder1Color c s = { s with border1Color := c.border1Color.getD s.border1Color } := by
  cases h : c.border1Color <;> simp [applyBorder1Color, h]

theorem applyBorder1Width_eq (c : PresetConfig) (s : Config) :
    applyBorder1Width c s = { s with border1Width := c.border1Width.getD s.border1Width } := by
  cases h : c.border1Width <;> simp [applyBorder1Width, h]

theorem applyBorder2Color_eq (c : PresetConfig) (s : Config) :
    applyBorder2Color c s = { s with border2Color := c.border2Color.getD s.border2Color } := by
  cases h : c.border2Color <;> simp [applyBorder2Color, h]

theorem applyBorder2Width_eq (c : PresetConfig) (s : Config) :
    applyBorder2Width c s = { s with border2Width := c.border2Width.getD s.border2Width } := by
  cases h : c.border2Width <;> simp [applyBorder2Width, h]

theorem applyShadowEnabled_eq (c : PresetConfig) (s : Config) :
    applyShadowEnabled c s = { s with shadowEnabled := c.shadowEnabled.getD s.shadowEnabled } := by
  cases h : c.shadowEnabled <;> simp [applyShadowEnabled, h]

theorem applyShadowOffsetX_eq (c : PresetConfig) (s : Config) :
    applyShadowOffsetX c s = { s with shadowOffsetX := c.shadowOffsetX.getD s.shadowOffsetX } := by
  cases h : c.shadowOffsetX <;> simp [applyShadowOffsetX, h]

theorem applyShadowOffsetY_eq (c : PresetConfig) (s : Config) :
    applyShadowOffsetY c s = { s with shadowOffsetY := c.shadowOffsetY.getD s.shadowOffsetY } := by
  cases h : c.shadowOffsetY <;> simp [applyShadowOffsetY, h]

theorem applyShadowBlur_eq (c : PresetConfig) (s : Config) :
    applyShadowBlur c s = { s with shadowBlur := c.shadowBlur.getD s.shadowBlur } := by
  cases h : c.shadowBlur <;> simp [applyShadowBlur, h]

theorem applyShadowOpacity_eq (c : PresetConfig) (s : Config) :
    applyShadowOpacity c s = { s with shadowOpacity := c.shadowOpacity.getD s.shadowOpacity } := by
  cases h : c.shadowOpacity <;> simp [applyShadowOpacity, h]

/-- The net effect of `loadPreset`: each live field is replaced by the
preset value when defined and kept otherwise; `text`, `fontSize` and
`fontFamily` are never touched. -/
theorem loadPreset_eq (p : Preset) (s : Config) :
    loadPreset p s =
      { s with
        textColor := p.config.textColor.getD s.textColor,
        textColorType := p.config.textColorType.getD s.textColorType,
        textGradientStart := p.config.textGradientStart.getD s.textGradientStart,
        textGradientEnd := p.config.textGradientEnd.getD s.textGradientEnd,
        textGradientAngle := p.config.textGradientAngle.getD s.textGradientAngle,
        border1Color := p.config.border1Color.getD s.border1Color,
        border1Width := p.config.border1Width.getD s.border1Width,
        border2Color := p.config.border2Color.getD s.border2Color,
        border2Width := p.config.border2Width.getD s.border2Width,
        shadowEnabled := p.config.shadowEnabled.getD s.shadowEnabled,
        shadowOffsetX := p.config.shadowOffsetX.getD s.shadowOffsetX,
        shadowOffsetY := p.config.shadowOffsetY.getD s.shadowOffsetY,
        shadowBlur := p.config.shadowBlur.getD s.shadowBlur,
        shadowOpacity := p.config.shadowOpacity.getD s.shadowOpacity } := by
  simp only [loadPreset, applyTextColor_eq, applyTextColorType_eq,
    applyTextGradientStart_eq, applyTextGradientEnd_eq, applyTextGradientAngle_eq,
    applyBorder1Color_eq, applyBorder1Width_eq, applyBorder2Color_eq,
    applyBorder2Width_eq, applyShadowEnabled_eq, applyShadowOffsetX_eq,
    applyShadowOffsetY_eq, applyShadowBlur_eq, applyShadowOpacity_eq]

/-- The preview canvas (`<canvas width={800} height={450}>`). -/
def previewSurface : Surface :=
  { width := 800, height := 450 }

/-- The hidden download canvas (`<canvas width={1920} height={1080}>`). -/
def exportSurface : Surface :=
  { width := 1920, height := 1080 }

/-- A text-measurement oracle reporting width 0 for everything; used
only to instantiate scenarios in which the measured width is
irrelevant. -/
noncomputable def measureZero : MeasureFn :=
  fun _ _ _ => 0

/-- The component's initial styling state (the `useState` initial
values), with the text replaced by "Hello" for the preset-merge
scenario and the font family by a plain specifier. -/
def scenarioConfig : Config :=
  { text := "Hello", fontSize := 120, fontFamily := "sans-serif",
    textColorType := ColorType.solid, textColor := "#FF0000",
    textGradientStart := "#FF0000", textGradientEnd := "#FF6600",
    textGradientAngle := 90,
    border1Color := "#FFFFFF", border1Width := 8,
    border2Color := "#000000", border2Width := 18,
    shadowEnabled := true, shadowOffsetX := 8, shadowOffsetY := 8,
    shadowBlur := 10, shadowOpacity := 3/5 }

/-- A preset defining only a black width-5 inner outline. -/
def scenarioPreset : Preset :=
  { name := "preset", config := { border1Color := some "#000000", border1Width := some 5 } }

/-- Is the last paint operation of a trace a fill? -/
def lastIsFill (evs : List PaintEvent) : Bool :=
  match evs.getLast? with
  | some (PaintEvent.fill _) => true
  | _ => false

/-- The line widths of the stroke operations of a trace, in order. -/
def strokeWidths (evs : List PaintEvent) : List ℚ :=
  evs.filterMap fun e =>
    match e with
    | PaintEvent.stroke se => some se.lineWidth
    | _ => none

/-- C1: on every configuration, both the preview render (`drawText`)
and the export render (`downloadImage`) issue their drawing passes in
the fixed order clear, shadow pass (iff `shadowEnabled`), outer stroke
(iff `border2Width > 0`), inner stroke (iff `border1Width > 0`), fill
pass; and the fill pass always executes and is the last operation of
the trace. -/
theorem C1_pass_order (surf dl pv : Surface) (cfg : Config) (measure : MeasureFn) :
    drawTextModel (some surf) true cfg measure = some (previewTrace surf cfg measure)
    ∧ downloadImageModel (some dl) true (some pv) cfg measure
        = some (exportTrace dl pv cfg measure)
    ∧ lastIsFill (previewTrace surf cfg measure) = true
    ∧ lastIsFill (exportTrace dl pv cfg measure) = true := by
  refine ⟨drawTextModel_eq_previewTrace surf cfg measure,
    downloadImageModel_eq_exportTrace dl pv cfg measure, ?_, ?_⟩ <;>
    by_cases hs : cfg.shadowEnabled <;>
      by_cases h2 : cfg.border2Width > 0 <;>
        by_cases h1 : cfg.border1Width > 0 <;>
          simp [lastIsFill, previewTrace, exportTrace, hs, h2, h1]

/-- C2: every stroke pass of the export render uses line width
`widthPx * scale * 2`, with `scale = downloadCanvas.width /
previewCanvas.width`; for a 1920-wide export of an 800-wide preview
the scale is 2.4, and strokes configured at width 10 are drawn with
effective line width 48. -/
theorem C2_stroke_width_scale :
    (∀ (dl pv : Surface) (cfg : Config) (measure : MeasureFn),
      (downloadImageModel (some dl) true (some pv) cfg measure).map strokeWidths
        = some
          ((if cfg.border2Width > 0 then [cfg.border2Width * (dl.width / pv.width) * 2] else [])
            ++ (if cfg.border1Width > 0 then [cfg.border1Width * (dl.width / pv.width) * 2] else [])))
    ∧ exportSurface.width / previewSurface.width = 2.4
    ∧ (downloadImageModel (some exportSurface) true (some previewSurface)
        { scenarioConfig with shadowEnabled := false, border1Width := 10, border2Width := 10 }
        measureZero).map strokeWidths = some [48, 48] := by
  refine ⟨?_, by norm_num [exportSurface, previewSurface], ?_⟩
  · intro dl pv cfg measure
    rw [downloadImageModel_eq_exportTrace]
    by_cases hs : cfg.shadowEnabled <;>
      by_cases h2 : cfg.border2Width > 0 <;>
        by_cases h1 : cfg.border1Width > 0 <;>
          simp [exportTrace, strokeWidths, hs, h2, h1, mul_right_comm]
  · rw [downloadImageModel_eq_exportTrace]
    norm_num [exportTrace, strokeWidths, scenarioConfig, exportSurface, previewSurface,
      List.filterMap_cons]

/-- C5: loading a preset replaces exactly those live fields for which
the preset's partial config defines a value and leaves every other
field (including the text) unchanged; in the concrete scenario,
loading a preset defining only a black width-5 inner outline onto a
state with text "Hello" keeps the text and sets outline1 to black,
width 5. -/
theorem C5_preset_partial_merge :
    (∀ (p : Preset) (s : Config),
      loadPreset p s =
        { s with
          textColor := p.config.textColor.getD s.textColor,
          textColorType := p.config.textColorType.getD s.textColorType,
          textGradientStart := p.config.textGradientStart.getD s.textGradientStart,
          textGradientEnd := p.config.textGradientEnd.getD s.textGradientEnd,
          textGradientAngle := p.config.textGradientAngle.getD s.textGradientAngle,
          border1Color := p.config.border1Color.getD s.border1Color,
          border1Width := p.config.border1Width.getD s.border1Width,
          border2Color := p.config.border2Color.getD s.border2Color,
          border2Width := p.config.border2Width.getD s.border2Width,
          shadowEnabled := p.config.shadowEnabled.getD s.shadowEnabled,
          shadowOffsetX := p.config.shadowOffsetX.getD s.shadowOffsetX,
          shadowOffsetY := p.config.shadowOffsetY.getD s.shadowOffsetY,
          shadowBlur := p.config.shadowBlur.getD s.shadowBlur,
          shadowOpacity := p.config.shadowOpacity.getD s.shadowOpacity })
    ∧ (loadPreset scenarioPreset scenarioConfig).text = "Hello"
    ∧ (loadPreset scenarioPreset scenarioConfig).border1Color = "#000000"
    ∧ (loadPreset scenarioPreset scenarioConfig).border1Width = 5 := by
  refine ⟨loadPreset_eq, ?_, ?_, ?_⟩ <;>
    simp [loadPreset_eq, scenarioPreset, scenarioConfig]

/-- C9: invoking the export without a download canvas, or without a
preview canvas as the scale source, draws nothing and produces no PNG
artifact (the model returns `none`), whatever the remaining state. -/
theorem C9_export_aborts_without_surface (ctxOk : Bool) (dl pv : Option Surface)
    (cfg : Config) (measure : MeasureFn) :
    downloadImageModel none ctxOk pv cfg measure = none
    ∧ downloadImageModel dl ctxOk none cfg measure = none := by
  refine ⟨rfl, ?_⟩
  cases dl with
  | none => rfl
  | some d => cases ctxOk <;> rfl

/-- C10: the preset config type captures neither the text nor the font
size nor the font family, so loading any preset produced by
`savePreset` leaves all three unchanged in the live state. -/
theorem C10_save_load_preserves_text_font (s : Config) (name : String) (s2 : Config) :
    (loadPreset (savePreset s name) s2).text = s2.text
    ∧ (loadPreset (savePreset s name) s2).fontSize = s2.fontSize
    ∧ (loadPreset (savePreset s name) s2).fontFamily = s2.fontFamily := by
  refine ⟨?_, ?_, ?_⟩ <;> simp [loadPreset_eq, savePreset]

/-- The last paint operation of a render result. -/
def lastPaint (o : Option (List PaintEvent)) : Option PaintEvent :=
  o.bind List.getLast?

/-- The shadow state a paint operation was composited through
(`clearRect` is unaffected by shadows). -/
def paintShadow : PaintEvent → Shadow
  | PaintEvent.clearRect _ _ _ _ => Shadow.disabled
  | PaintEvent.fill e => e.shadow
  | PaintEvent.stroke e => e.shadow

/-- Every operation of the trace ran with the shadow effect disabled. -/
def shadowsDisabled (evs : List PaintEvent) : Bool :=
  evs.all fun e => decide (paintShadow e = Shadow.disabled)

/-- The operations `drawText` issues after the shadow pass: outer
stroke, inner stroke (each when applicable) and the fill pass. -/
noncomputable def previewRest (surf : Surface) (cfg : Config) (measure : MeasureFn) :
    List PaintEvent :=
  (if cfg.border2Width > 0 then
    [PaintEvent.stroke
      { strokeStyle := cfg.border2Color, lineWidth := cfg.border2Width * 2,
        lineJoin := "round", miterLimit := 2, shadow := Shadow.disabled,
        fontSizePx := cfg.fontSize, fontFamily := cfg.fontFamily,
        textAlign := "center", textBaseline := "middle",
        x := surf.width / 2, y := surf.height / 2, text := cfg.text }] else [])
  ++ (if cfg.border1Width > 0 then
      [PaintEvent.stroke
        { strokeStyle := cfg.border1Color, lineWidth := cfg.border1Width * 2,
          lineJoin := "round", miterLimit := 2, shadow := Shadow.disabled,
          fontSizePx := cfg.fontSize, fontFamily := cfg.fontFamily,
          textAlign := "center", textBaseline := "middle",
          x := surf.width / 2, y := surf.height / 2, text := cfg.text }] else [])
  ++ [PaintEvent.fill
      { style := if cfg.textColorType = ColorType.gradient then
            FillStyle.gradient
              (gradX1 (surf.width / 2) (measure cfg.fontSize cfg.fontFamily cfg.text)
                (angleRadOf cfg.textGradientAngle))
              (gradY1 (surf.height / 2) ((cfg.fontSize : ℝ))
                (angleRadOf cfg.textGradientAngle))
              (gradX2 (surf.width / 2) (measure cfg.fontSize cfg.fontFamily cfg.text)
                (angleRadOf cfg.textGradientAngle))
              (gradY2 (surf.height / 2) ((cfg.fontSize : ℝ))
                (angleRadOf cfg.textGradientAngle))
              [(0, cfg.textGradientStart), (1, cfg.textGradientEnd)]
          else FillStyle.solid cfg.textColor,
        shadow := Shadow.disabled,
        fontSizePx := cfg.fontSize, fontFamily := cfg.fontFamily,
        textAlign := "center", textBaseline := "middle",
        x := surf.width / 2, y := surf.height / 2, text := cfg.text }]

/-- The operations `downloadImage` issues after the shadow pass. -/
noncomputable def exportRest (dl pv : Surface) (cfg : Config) (measure : MeasureFn) :
    List PaintEvent :=
  (if cfg.border2Width > 0 then
    [PaintEvent.stroke
      { strokeStyle := cfg.border2Color,
        lineWidth := cfg.border2Width * 2 * (dl.width / pv.width),
        lineJoin := "round", miterLimit := 2, shadow := Shadow.disabled,
        fontSizePx := cfg.fontSize * (dl.width / pv.width),
        fontFamily := cfg.fontFamily,
        textAlign := "center", textBaseline := "middle",
        x := dl.width / 2, y := dl.height / 2, text := cfg.text }] else [])
  ++ (if cfg.border1Width > 0 then
      [PaintEvent.stroke
        { strokeStyle := cfg.border1Color,
          lineWidth := cfg.border1Width * 2 * (dl.width / pv.width),
          lineJoin := "round", miterLimit := 2, shadow := Shadow.disabled,
          fontSizePx := cfg.fontSize * (dl.width / pv.width),
          fontFamily := cfg.fontFamily,
          textAlign := "center", textBaseline := "middle",
          x := dl.width / 2, y := dl.height / 2, text := cfg.text }] else [])
  ++ [PaintEvent.fill
      { style := if cfg.textColorType = ColorType.gradient then
            FillStyle.gradient
              (gradX1 (dl.width / 2)
                (measure (cfg.fontSize * (dl.width / pv.width)) cfg.fontFamily cfg.text)
                (angleRadOf cfg.textGradientAngle))
              (gradY1 (dl.height / 2) ((cfg.fontSize * (dl.width / pv.width) : ℚ) : ℝ)
                (angleRadOf cfg.textGradientAngle))
              (gradX2 (dl.width / 2)
                (measure (cfg.fontSize * (dl.width / pv.width)) cfg.fontFamily cfg.text)
                (angleRadOf cfg.textGradientAngle))
              (gradY2 (dl.height / 2) ((cfg.fontSize * (dl.width / pv.width) : ℚ) : ℝ)
                (angleRadOf cfg.textGradientAngle))
              [(0, cfg.textGradientStart), (1, cfg.textGradientEnd)]
          else FillStyle.solid cfg.textColor,
        shadow := Shadow.disabled,
        fontSizePx := cfg.fontSize * (dl.width / pv.width),
        fontFamily := cfg.fontFamily,
        textAlign := "center", textBaseline := "middle",
        x := dl.width / 2, y := dl.height / 2, text := cfg.text }]

/-- C3: in gradient mode the fill pass of both renders uses a linear
gradient whose axis runs from
(anchor.x − (W/2)·cos θ, anchor.y − (H/2)·sin θ) to
(anchor.x + (W/2)·cos θ, anchor.y + (H/2)·sin θ) with
θ = angleDegrees·π/180, W the measured text width at the scaled font
size, H = fontSizePx·scale and the anchor at the surface center, and
exactly two stops: 0 ↦ startColor, 1 ↦ endColor. -/
theorem C3_gradient_axis (surf dl pv : Surface) (cfg : Config) (measure : MeasureFn)
    (h : cfg.textColorType = ColorType.gradient) :
    lastPaint (drawTextModel (some surf) true cfg measure)
      = some (PaintEvent.fill
        { style := FillStyle.gradient
            (((surf.width / 2 : ℚ) : ℝ)
              - measure cfg.fontSize cfg.fontFamily cfg.text / 2
                * Real.cos ((cfg.textGradientAngle : ℝ) * Real.pi / 180))
            (((surf.height / 2 : ℚ) : ℝ)
              - (cfg.fontSize : ℝ) / 2
                * Real.sin ((cfg.textGradientAngle : ℝ) * Real.pi / 180))
            (((surf.width / 2 : ℚ) : ℝ)
              + measure cfg.fontSize cfg.fontFamily cfg.text / 2
                * Real.cos ((cfg.textGradientAngle : ℝ) * Real.pi / 180))
            (((surf.height / 2 : ℚ) : ℝ)
              + (cfg.fontSize : ℝ) / 2
                * Real.sin ((cfg.textGradientAngle : ℝ) * Real.pi / 180))
            [(0, cfg.textGradientStart), (1, cfg.textGradientEnd)],
          shadow := Shadow.disabled, fontSizePx := cfg.fontSize,
          fontFamily := cfg.fontFamily, textAlign := "center", textBaseline := "middle",
          x := surf.width / 2, y := surf.height / 2, text := cfg.text })
    ∧ lastPaint (downloadImageModel (some dl) true (some pv) cfg measure)
      = some (PaintEvent.fill
        { style := FillStyle.gradient
            (((dl.width / 2 : ℚ) : ℝ)
              - measure (cfg.fontSize * (dl.width / pv.width)) cfg.fontFamily cfg.text / 2
                * Real.cos ((cfg.textGradientAngle : ℝ) * Real.pi / 180))
            (((dl.height / 2 : ℚ) : ℝ)
              - ((cfg.fontSize * (dl.width / pv.width) : ℚ) : ℝ) / 2
                * Real.sin ((cfg.textGradientAngle : ℝ) * Real.pi / 180))
            (((dl.width / 2 : ℚ) : ℝ)
              + measure (cfg.fontSize * (dl.width / pv.width)) cfg.fontFamily cfg.text / 2
                * Real.cos ((cfg.textGradientAngle : ℝ) * Real.pi / 180))
            (((dl.height / 2 : ℚ) : ℝ)
              + ((cfg.fontSize * (dl.width / pv.width) : ℚ) : ℝ) / 2
                * Real.sin ((cfg.textGradientAngle : ℝ) * Real.pi / 180))
            [(0, cfg.textGradientStart), (1, cfg.textGradientEnd)],
          shadow := Shadow.disabled, fontSizePx := cfg.fontSize * (dl.width / pv.width),
          fontFamily := cfg.fontFamily, textAlign := "center", textBaseline := "middle",
          x := dl.width / 2, y := dl.height / 2, text := cfg.text }) := by
  constructor
  · rw [lastPaint, drawTextModel_eq_previewTrace]
    by_cases hs : cfg.shadowEnabled <;>
      by_cases h2 : cfg.border2Width > 0 <;>
        by_cases h1 : cfg.border1Width > 0 <;>
          simp [previewTrace, h, hs, h2, h1, gradX1, gradY1, gradX2, gradY2, angleRadOf]
  · rw [lastPaint, downloadImageModel_eq_exportTrace]
    by_cases hs : cfg.shadowEnabled <;>
      by_cases h2 : cfg.border2Width > 0 <;>
        by_cases h1 : cfg.border1Width > 0 <;>
          simp [exportTrace, h, hs, h2, h1, gradX1, gradY1, gradX2, gradY2, angleRadOf]

/-- The scenario configuration switched to gradient fill mode. -/
def c3Config : Config :=
  { scenarioConfig with textColorType := ColorType.gradient }

/-- Witness for C3 at the concrete preview/export surfaces and a
gradient-mode configuration. -/
theorem C3_gradient_axis_witness :
    c3Config.textColorType = ColorType.gradient
    ∧ (lastPaint (drawTextModel (some previewSurface) true c3Config measureZero)
        = some (PaintEvent.fill
          { style := FillStyle.gradient
              (((previewSurface.width / 2 : ℚ) : ℝ)
                - measureZero c3Config.fontSize c3Config.fontFamily c3Config.text / 2
                  * Real.cos ((c3Config.textGradientAngle : ℝ) * Real.pi / 180))
              (((previewSurface.height / 2 : ℚ) : ℝ)
                - (c3Config.fontSize : ℝ) / 2
                  * Real.sin ((c3Config.textGradientAngle : ℝ) * Real.pi / 180))
              (((previewSurface.width / 2 : ℚ) : ℝ)
                + measureZero c3Config.fontSize c3Config.fontFamily c3Config.text / 2
                  * Real.cos ((c3Config.textGradientAngle : ℝ) * Real.pi / 180))
              (((previewSurface.height / 2 : ℚ) : ℝ)
                + (c3Config.fontSize : ℝ) / 2
                  * Real.sin ((c3Config.textGradientAngle : ℝ) * Real.pi / 180))
              [(0, c3Config.textGradientStart), (1, c3Config.textGradientEnd)],
            shadow := Shadow.disabled, fontSizePx := c3Config.fontSize,
            fontFamily := c3Config.fontFamily, textAlign := "center", textBaseline := "middle",
            x := previewSurface.width / 2, y := previewSurface.height / 2,
            text := c3Config.text })
      ∧ lastPaint (downloadImageModel (some exportSurface) true (some previewSurface)
            c3Config measureZero)
        = some (PaintEvent.fill
          { style := FillStyle.gradient
              (((exportSurface.width / 2 : ℚ) : ℝ)
                - measureZero (c3Config.fontSize * (exportSurface.width / previewSurface.width))
                    c3Config.fontFamily c3Config.text / 2
                  * Real.cos ((c3Config.textGradientAngle : ℝ) * Real.pi / 180))
              (((exportSurface.height / 2 : ℚ) : ℝ)
                - ((c3Config.fontSize * (exportSurface.width / previewSurface.width) : ℚ) : ℝ) / 2
                  * Real.sin ((c3Config.textGradientAngle : ℝ) * Real.pi / 180))
              (((exportSurface.width / 2 : ℚ) : ℝ)
                + measureZero (c3Config.fontSize * (exportSurface.width / previewSurface.width))
                    c3Config.fontFamily c3Config.text / 2
                  * Real.cos ((c3Config.textGradientAngle : ℝ) * Real.pi / 180))
              (((exportSurface.height / 2 : ℚ) : ℝ)
                + ((c3Config.fontSize * (exportSurface.width / previewSurface.width) : ℚ) : ℝ) / 2
                  * Real.sin ((c3Config.textGradientAngle : ℝ) * Real.pi / 180))
              [(0, c3Config.textGradientStart), (1, c3Config.textGradientEnd)],
            shadow := Shadow.disabled,
            fontSizePx := c3Config.fontSize * (exportSurface.width / previewSurface.width),
            fontFamily := c3Config.fontFamily, textAlign := "center", textBaseline := "middle",
            x := exportSurface.width / 2, y := exportSurface.height / 2,
            text := c3Config.text })) :=
  ⟨rfl, C3_gradient_axis previewSurface exportSurface previewSurface c3Config measureZero rfl⟩

/-- C6: with the shadow enabled, both renders perform exactly one
shadow pass — a fill in opaque black composited through a shadow of
color rgba(0, 0, 0, opacity), blur blurPx·scale and offset
(offsetXPx·scale, offsetYPx·scale), right after the clear — and every
subsequent operation (both strokes and the fill pass) runs with the
shadow effect disabled. -/
theorem C6_shadow_pass_isolation (surf dl pv : Surface) (cfg : Config)
    (measure : MeasureFn) (h : cfg.shadowEnabled = true) :
    drawTextModel (some surf) true cfg measure
      = some (PaintEvent.clearRect 0 0 surf.width surf.height
          :: PaintEvent.fill
              { style := FillStyle.solid "black",
                shadow := { color := ShadowColor.rgba 0 0 0 cfg.shadowOpacity,
                            blur := cfg.shadowBlur, offsetX := cfg.shadowOffsetX,
                            offsetY := cfg.shadowOffsetY },
                fontSizePx := cfg.fontSize, fontFamily := cfg.fontFamily,
                textAlign := "center", textBaseline := "middle",
                x := surf.width / 2, y := surf.height / 2, text := cfg.text }
          :: previewRest surf cfg measure)
    ∧ shadowsDisabled (previewRest surf cfg measure) = true
    ∧ downloadImageModel (some dl) true (some pv) cfg measure
      = some (PaintEvent.clearRect 0 0 dl.width dl.height
          :: PaintEvent.fill
              { style := FillStyle.solid "black",
                shadow := { color := ShadowColor.rgba 0 0 0 cfg.shadowOpacity,
                            blur := cfg.shadowBlur * (dl.width / pv.width),
                            offsetX := cfg.shadowOffsetX * (dl.width / pv.width),
                            offsetY := cfg.shadowOffsetY * (dl.width / pv.width) },
                fontSizePx := cfg.fontSize * (dl.width / pv.width),
                fontFamily := cfg.fontFamily,
                textAlign := "center", textBaseline := "middle",
                x := dl.width / 2, y := dl.height / 2, text := cfg.text }
          :: exportRest dl pv cfg measure)
    ∧ shadowsDisabled (exportRest dl pv cfg measure) = true := by
  refine ⟨?_, ?_, ?_, ?_⟩
  · rw [drawTextModel_eq_previewTrace]
    simp [previewTrace, previewRest, h]
  · by_cases h2 : cfg.border2Width > 0 <;>
      by_cases h1 : cfg.border1Width > 0 <;>
        simp [previewRest, shadowsDisabled, paintShadow, h2, h1]
  · rw [downloadImageModel_eq_exportTrace]
    simp [exportTrace, exportRest, h]
  · by_cases h2 : cfg.border2Width > 0 <;>
      by_cases h1 : cfg.border1Width > 0 <;>
        simp [exportRest, shadowsDisabled, paintShadow, h2, h1]

/-- Witness for C6 at the concrete surfaces and the initial
configuration (shadow enabled). -/
theorem C6_shadow_pass_isolation_witness :
    scenarioConfig.shadowEnabled = true
    ∧ (drawTextModel (some previewSurface) true scenarioConfig measureZero
        = some (PaintEvent.clearRect 0 0 previewSurface.width previewSurface.height
            :: PaintEvent.fill
                { style := FillStyle.solid "black",
                  shadow := { color := ShadowColor.rgba 0 0 0 scenarioConfig.shadowOpacity,
                              blur := scenarioConfig.shadowBlur,
                              offsetX := scenarioConfig.shadowOffsetX,
                              offsetY := scenarioConfig.shadowOffsetY },
                  fontSizePx := scenarioConfig.fontSize,
                  fontFamily := scenarioConfig.fontFamily,
                  textAlign := "center", textBaseline := "middle",
                  x := previewSurface.width / 2, y := previewSurface.height / 2,
                  text := scenarioConfig.text }
            :: previewRest previewSurface scenarioConfig measureZero)
      ∧ shadowsDisabled (previewRest previewSurface scenarioConfig measureZero) = true
      ∧ downloadImageModel (some exportSurface) true (some previewSurface)
            scenarioConfig measureZero
        = some (PaintEvent.clearRect 0 0 exportSurface.width exportSurface.height
            :: PaintEvent.fill
                { style := FillStyle.solid "black",
                  shadow := { color := ShadowColor.rgba 0 0 0 scenarioConfig.shadowOpacity,
                              blur := scenarioConfig.shadowBlur
                                * (exportSurface.width / previewSurface.width),
                              offsetX := scenarioConfig.shadowOffsetX
                                * (exportSurface.width / previewSurface.width),
                              offsetY := scenarioConfig.shadowOffsetY
                                * (exportSurface.width / previewSurface.width) },
                  fontSizePx := scenarioConfig.fontSize
                    * (exportSurface.width / previewSurface.width),
                  fontFamily := scenarioConfig.fontFamily,
                  textAlign := "center", textBaseline := "middle",
                  x := exportSurface.width / 2, y := exportSurface.height / 2,
                  text := scenarioConfig.text }
            :: exportRest exportSurface previewSurface scenarioConfig measureZero)
      ∧ shadowsDisabled (exportRest exportSurface previewSurface scenarioConfig measureZero)
          = true) :=
  ⟨rfl, C6_shadow_pass_isolation previewSurface exportSurface previewSurface
    scenarioConfig measureZero rfl⟩

/-- C7: the gradient axis computed by the renderers is vertical for
angle 90 (the endpoints share their X coordinate and, for nonzero text
height, differ in Y) and horizontal for angle 0 (the endpoints share
their Y coordinate and, for nonzero text width, differ in X). -/
theorem C7_gradient_axis_symmetry (x y : ℚ) (w h : ℝ) :
    gradX1 x w (angleRadOf 90) = gradX2 x w (angleRadOf 90)
    ∧ (h ≠ 0 → gradY1 y h (angleRadOf 90) ≠ gradY2 y h (angleRadOf 90))
    ∧ gradY1 y h (angleRadOf 0) = gradY2 y h (angleRadOf 0)
    ∧ (w ≠ 0 → gradX1 x w (angleRadOf 0) ≠ gradX2 x w (angleRadOf 0)) := by
  have h90 : angleRadOf 90 = Real.pi / 2 := by
    rw [angleRadOf]
    push_cast
    ring
  have h0 : angleRadOf 0 = 0 := by
    rw [angleRadOf]
    push_cast
    ring
  refine ⟨?_, ?_, ?_, ?_⟩
  · simp [gradX1, gradX2, h90, Real.cos_pi_div_two]
  · intro hh heq
    rw [gradY1, gradY2, h90, Real.sin_pi_div_two] at heq
    apply hh
    linarith
  · simp [gradY1, gradY2, h0, Real.sin_zero]
  · intro hw heq
    rw [gradX1, gradX2, h0, Real.cos_zero] at heq
    apply hw
    linarith

/-- Witness for C7 at concrete anchor (0, 0), width 1, height 1. -/
theorem C7_gradient_axis_symmetry_witness :
    (1 : ℝ) ≠ 0
    ∧ gradY1 0 (1 : ℝ) (angleRadOf 90) ≠ gradY2 0 (1 : ℝ) (angleRadOf 90)
    ∧ gradX1 0 (1 : ℝ) (angleRadOf 0) ≠ gradX2 0 (1 : ℝ) (angleRadOf 0) :=
  ⟨by norm_num,
    (C7_gradient_axis_symmetry 0 0 1 1).2.1 (by norm_num),
    (C7_gradient_axis_symmetry 0 0 1 1).2.2.2 (by norm_num)⟩

/-- Modelled from the spec: the render of `drawText` "where the
inner-stroke pass is entirely omitted" — identical to `drawTextModel`
except that the `border1` block (source lines 266–271) is deleted.
This comparison render is not part of the source; it exists only to
state the zero-width-suppression property. -/
noncomputable def drawTextModelInnerOmitted (canvas : Option Surface) (ctxOk : Bool)
    (cfg : Config) (measure : MeasureFn) : Option (List PaintEvent) :=
  match canvas with
  | none => none
  | some canvas =>
    if ctxOk = false then none else
    let ev0 : List PaintEvent := [PaintEvent.clearRect 0 0 canvas.width canvas.height]
    let ctx : Ctx := {}
    let ctx := { ctx with fontSizePx := cfg.fontSize, fontFamily := cfg.fontFamily }
    let ctx := { ctx with textAlign := "center" }
    let ctx := { ctx with textBaseline := "middle" }
    let ctx := { ctx with lineJoin := "round" }
    let ctx := { ctx with miterLimit := 2 }
    let x := canvas.width / 2
    let y := canvas.height / 2
    let ctx := if cfg.shadowEnabled then
        { ctx with shadowColor := ShadowColor.rgba 0 0 0 cfg.shadowOpacity,
                   shadowBlur := cfg.shadowBlur,
                   shadowOffsetX := cfg.shadowOffsetX,
                   shadowOffsetY := cfg.shadowOffsetY,
                   fillStyle := FillStyle.solid "black" }
      else ctx
    let evShadow : List PaintEvent :=
      if cfg.shadowEnabled then [ctx.fillTextEv x y cfg.text] else []
    let ctx := if cfg.shadowEnabled then
        { ctx with shadowColor := ShadowColor.transparent,
                   shadowBlur := 0, shadowOffsetX := 0, shadowOffsetY := 0 }
      else ctx
    let ctx := if cfg.border2Width > 0 then
        { ctx with strokeStyle := cfg.border2Color, lineWidth := cfg.border2Width * 2 }
      else ctx
    let evB2 : List PaintEvent :=
      if cfg.border2Width > 0 then [ctx.strokeTextEv x y cfg.text] else []
    let ctx := if cfg.textColorType = ColorType.gradient then
        let textHeight : ℝ := (cfg.fontSize : ℝ)
        let textWidth : ℝ := measure cfg.fontSize cfg.fontFamily cfg.text
        let angleRad : ℝ := angleRadOf cfg.textGradientAngle
        let gradient : FillStyle := FillStyle.gradient
          (gradX1 x textWidth angleRad) (gradY1 y textHeight angleRad)
          (gradX2 x textWidth angleRad) (gradY2 y textHeight angleRad)
          [(0, cfg.textGradientStart), (1, cfg.textGradientEnd)]
        { ctx with fillStyle := gradient }
      else { ctx with fillStyle := FillStyle.solid cfg.textColor }
    some (ev0 ++ evShadow ++ evB2 ++ [ctx.fillTextEv x y cfg.text])

/-- C8: with `border1Width = 0` the render issues exactly the same
paint operations as the render with the inner-stroke pass entirely
omitted, for every canvas/context state; and rendering never fails on
a valid canvas (each pass guards its own precondition), including for
empty text and zero-width outlines. -/
theorem C8_zero_width_inner_suppression (canvas : Option Surface) (ctxOk : Bool)
    (surf : Surface) (cfg : Config) (measure : MeasureFn)
    (h : cfg.border1Width = 0) :
    drawTextModel canvas ctxOk cfg measure
      = drawTextModelInnerOmitted canvas ctxOk cfg measure
    ∧ (drawTextModel (some surf) true cfg measure).isSome = true := by
  constructor
  · cases canvas with
    | none => rfl
    | some c =>
      cases ctxOk with
      | false => rfl
      | true => simp [drawTextModel, drawTextModelInnerOmitted, h]
  · rw [drawTextModel_eq_previewTrace]
    rfl

/-- The scenario configuration with empty text and a zero-width inner
outline. -/
def c8Config : Config :=
  { scenarioConfig with text := "", border1Width := 0 }

/-- Witness for C8 at the concrete preview surface, empty text and
zero inner-outline width. -/
theorem C8_zero_width_inner_suppression_witness :
    c8Config.border1Width = 0
    ∧ (drawTextModel (some previewSurface) true c8Config measureZero
        = drawTextModelInnerOmitted (some previewSurface) true c8Config measureZero
      ∧ (drawTextModel (some previewSurface) true c8Config measureZero).isSome = true) :=
  ⟨rfl, C8_zero_width_inner_suppression (some previewSurface) true previewSurface
    c8Config measureZero rfl⟩

/-- A host-enumerated font as captured by `loadLocalFonts` (App.tsx
lines 33–38 and 162–170): family, full name, PostScript name, style. -/
structure LocalFont where
  family : String
  fullName : String
  postscriptName : String
  style : String
deriving DecidableEq

/-- `Map.prototype.set` keyed by `font.family` (the `new Map(...)`
constructor applies it once per enumerated font): a duplicate key
overwrites the stored value in place, keeping the first occurrence's
insertion position; a new key is appended.  Since every stored value
carries its key as its `family` field, the map is modelled as the list
of its values in insertion order. -/
def mapSet : List LocalFont → LocalFont → List LocalFont
  | [], f => [f]
  | g :: t, f => if g.family = f.family then f :: t else g :: mapSet t f

/-- `Array.from(new Map(availableFonts.map(...)).values())` (App.tsx
lines 162–171): the values of the family-keyed map, in insertion
order. -/
def jsMapValues (fonts : List LocalFont) : List LocalFont :=
  fonts.foldl mapSet []

/-- The comparator `(a, b) => a.family.localeCompare(b.family)`,
modelled as the lexicographic order on the family strings. -/
def famLE (a b : LocalFont) : Prop :=
  a.family ≤ b.family

instance : DecidableRel famLE :=
  fun a b => inferInstanceAs (Decidable (a.family ≤ b.family))

instance : IsTotal LocalFont famLE :=
  ⟨fun a b => le_total a.family b.family⟩

instance : IsTrans LocalFont famLE :=
  ⟨fun _ _ _ hab hbc => le_trans hab hbc⟩

/-- The deduplicated, family-sorted font list `loadLocalFonts` stores
and offers as options (App.tsx lines 162–173): `.sort` with the
family comparator is modelled as a stable insertion sort (after
deduplication the families are pairwise distinct, so every
comparator-correct sort produces this list). -/
def uniqueSortedFonts (fonts : List LocalFont) : List LocalFont :=
  List.insertionSort famLE (jsMapValues fonts)

/-- The first of `o` and `fallback` that is `some`. -/
def firstSome (o fallback : Option LocalFont) : Option LocalFont :=
  match o with
  | some g => some g
  | none => fallback

theorem firstSome_none (o : Option LocalFont) : firstSome o none = o := by
  cases o <;> rfl

theorem find?_concat (p : LocalFont → Bool) (a : LocalFont) :
    ∀ l : List LocalFont,
      (l ++ [a]).find? p = firstSome (l.find? p) (if p a then some a else none)
  | [] => by
    by_cases ha : p a <;> simp [List.find?, firstSome, ha]
  | b :: t => by
    by_cases hb : p b <;>
      simp [List.find?_cons_of_pos, List.find?_cons_of_neg, hb, firstSome,
        find?_concat p a t]

theorem mapSet_find? (f : LocalFont) (s : String) :
    ∀ acc : List LocalFont,
      (mapSet acc f).find? (fun g => g.family == s)
        = if f.family == s then some f
          else acc.find? (fun g => g.family == s)
  | [] => by
    by_cases hf : f.family == s <;> simp [mapSet, hf]
  | g :: t => by
    by_cases hg : g.family = f.family
    · by_cases hf : f.family == s
      · have hgs : (g.family == s) = true := by
          rw [hg]
          exact hf
        simp [mapSet, hg, hf, hgs]
      · have hgs : (g.family == s) = false := by
          rw [hg]
          simpa using hf
        simp [mapSet, hg, hf, hgs]
    · by_cases hgs : g.family == s
      · by_cases hf : f.family == s
        · exact absurd (by rw [eq_of_beq hgs, eq_of_beq hf]) hg
        · simp [mapSet, hg, hgs, hf]
      · simp [mapSet, hg, hgs, mapSet_find? f s t]

theorem mapSet_families (f : LocalFont) (s : String) :
    ∀ acc : List LocalFont,
      s ∈ (mapSet acc f).map LocalFont.family
        ↔ s ∈ acc.map LocalFont.family ∨ s = f.family
  | [] => by simp [mapSet]
  | g :: t => by
    by_cases hg : g.family = f.family
    · rw [mapSet, if_pos hg]
      simp only [List.map_cons, List.mem_cons, hg]
      tauto
    · rw [mapSet, if_neg hg]
      simp only [List.map_cons, List.mem_cons, mapSet_families f s t]
      tauto

theorem mapSet_families_nodup (f : LocalFont) :
    ∀ acc : List LocalFont, (acc.map LocalFont.family).Nodup →
      ((mapSet acc f).map LocalFont.family).Nodup
  | [], _ => by simp [mapSet]
  | g :: t, nd => by
    have hgt : g.family ∉ t.map LocalFont.family := (List.nodup_cons.mp nd).1
    have ndt : (t.map LocalFont.family).Nodup := (List.nodup_cons.mp nd).2
    by_cases hg : g.family = f.family
    · rw [mapSet, if_pos hg]
      simp only [List.map_cons, List.nodup_cons]
      exact ⟨hg ▸ hgt, ndt⟩
    · rw [mapSet, if_neg hg]
      simp only [List.map_cons, List.nodup_cons]
      refine ⟨?_, mapSet_families_nodup f t ndt⟩
      rw [mapSet_families]
      push_neg
      exact ⟨hgt, hg⟩

theorem foldl_mapSet_find? (s : String) :
    ∀ (fonts acc : List LocalFont),
      (fonts.foldl mapSet acc).find? (fun g => g.family == s)
        = firstSome (fonts.reverse.find? (fun g => g.family == s))
            (acc.find? (fun g => g.family == s))
  | [], acc => by simp [firstSome]
  | f :: rest, acc => by
    rw [List.foldl_cons, foldl_mapSet_find? s rest (mapSet acc f),
      mapSet_find?, List.reverse_cons, find?_concat]
    cases hA : rest.reverse.find? (fun g => g.family == s) <;>
      by_cases hf : f.family == s <;>
        simp [firstSome, hA, hf]

theorem foldl_mapSet_families (s : String) :
    ∀ (fonts acc : List LocalFont),
      s ∈ ((fonts.foldl mapSet acc).map LocalFont.family)
        ↔ s ∈ acc.map LocalFont.family ∨ s ∈ fonts.map LocalFont.family
  | [], acc => by simp
  | f :: rest, acc => by
    rw [List.foldl_cons, foldl_mapSet_families s rest (mapSet acc f),
      mapSet_families]
    simp only [List.map_cons, List.mem_cons]
    tauto

theorem foldl_mapSet_nodup :
    ∀ (fonts acc : List LocalFont), (acc.map LocalFont.family).Nodup →
      ((fonts.foldl mapSet acc).map LocalFont.family).Nodup
  | [], _, nd => nd
  | f :: rest, acc, nd => by
    rw [List.foldl_cons]
    exact foldl_mapSet_nodup rest (mapSet acc f) (mapSet_families_nodup f acc nd)

theorem find?_family_of_mem :
    ∀ l : List LocalFont, (l.map LocalFont.family).Nodup →
      ∀ g ∈ l, l.find? (fun f => f.family == g.family) = some g
  | [], _, g, hg => by simp at hg
  | h :: t, nd, g, hg => by
    rcases List.mem_cons.mp hg with rfl | hgt
    · simp [List.find?_cons_of_pos]
    · have hne : (h.family == g.family) = false := by
        have h1 : g.family ∈ t.map LocalFont.family := List.mem_map_of_mem _ hgt
        have h2 : h.family ∉ t.map LocalFont.family := (List.nodup_cons.mp nd).1
        simp only [beq_eq_false_iff_ne, ne_eq]
        intro hc
        exact h2 (hc ▸ h1)
      rw [List.find?_cons_of_neg _ (by simp [hne]),
        find?_family_of_mem t (List.nodup_cons.mp nd).2 g hgt]

/-- Two host-enumerated fonts sharing the family "Alpha" but differing
in every other field; the first one enumerated. -/
def dupFontA : LocalFont :=
  { family := "Alpha", fullName := "Alpha Regular",
    postscriptName := "Alpha-Regular", style := "Regular" }

/-- The second enumerated font of family "Alpha". -/
def dupFontB : LocalFont :=
  { family := "Alpha", fullName := "Alpha Bold",
    postscriptName := "Alpha-Bold", style := "Bold" }

/-- C4 counterexample: when two enumerated fonts share a family, the
record that survives deduplication is the LAST occurrence, not the
first: enumerating `[dupFontA, dupFontB]` yields `[dupFontB]` (with
dupFontB's full name, PostScript name and style), not `[dupFontA]`. -/
theorem C4_counterexample_last_occurrence_wins :
    uniqueSortedFonts [dupFontA, dupFontB] = [dupFontB]
    ∧ uniqueSortedFonts [dupFontA, dupFontB] ≠ [dupFontA]
    ∧ dupFontA.family = dupFontB.family := by
  refine ⟨by decide, by decide, by decide⟩

/-- C4 (amended): the offered font list is deduplicated by family name
with the LAST occurrence's record winning (the family-keyed JS map
overwrites the stored value on a duplicate key), and is sorted
lexicographically by family name: the result is sorted, its families
are pairwise distinct, each surviving record is the last enumerated
record of its family, and exactly the enumerated families survive. -/
theorem C4_amended_dedup_sort (fonts : List LocalFont) :
    List.Sorted famLE (uniqueSortedFonts fonts)
    ∧ ((uniqueSortedFonts fonts).map LocalFont.family).Nodup
    ∧ (∀ g ∈ uniqueSortedFonts fonts,
        fonts.reverse.find? (fun f => f.family == g.family) = some g)
    ∧ (∀ s : String,
        (∃ g ∈ uniqueSortedFonts fonts, g.family = s) ↔ ∃ f ∈ fonts, f.family = s) := by
  have hperm : List.Perm (uniqueSortedFonts fonts) (jsMapValues fonts) :=
    List.perm_insertionSort famLE (jsMapValues fonts)
  have hnodupVals : ((jsMapValues fonts).map LocalFont.family).Nodup :=
    foldl_mapSet_nodup fonts [] (by simp)
  refine ⟨List.sorted_insertionSort famLE _, ?_, ?_, ?_⟩
  · exact ((hperm.map LocalFont.family).nodup_iff).mpr hnodupVals
  · intro g hg
    have hgv : g ∈ jsMapValues fonts := hperm.subset hg
    have hfind : (jsMapValues fonts).find? (fun f => f.family == g.family) = some g :=
      find?_family_of_mem _ hnodupVals g hgv
    rw [jsMapValues, foldl_mapSet_find?] at hfind
    simpa [firstSome_none] using hfind
  · intro s
    constructor
    · rintro ⟨g, hg, rfl⟩
      have hgv : g ∈ jsMapValues fonts := hperm.subset hg
      have hmem : g.family ∈ (jsMapValues fonts).map LocalFont.family :=
        List.mem_map_of_mem _ hgv
      rcases (foldl_mapSet_families g.family fonts []).mp hmem with h2 | h2
      · simp at h2
      · rcases List.mem_map.mp h2 with ⟨f, hf, hff⟩
        exact ⟨f, hf, hff⟩
    · rintro ⟨f, hf, rfl⟩
      have hmem : f.family ∈ (jsMapValues fonts).map LocalFont.family := by
        refine (foldl_mapSet_families f.family fonts []).mpr (Or.inr ?_)
        exact List.mem_map_of_mem _ hf
      rcases List.mem_map.mp hmem with ⟨g, hgv, hgf⟩
      exact ⟨g, hperm.mem_iff.mpr hgv, hgf⟩

/-- A font with a family no other fixture shares. -/
def soloFont : LocalFont :=
  { family := "Solo", fullName := "Solo", postscriptName := "Solo", style := "Regular" }

/-- Witness for the amended C4: applied to the one-font list, with the
membership hypothesis discharged concretely. -/
theorem C4_amended_dedup_sort_witness :
    soloFont ∈ uniqueSortedFonts [soloFont]
    ∧ [soloFont].reverse.find? (fun f => f.family == soloFont.family) = some soloFont :=
  ⟨by decide,
    (C4_amended_dedup_sort [soloFont]).2.2.1 soloFont (by decide)⟩

end TitleGen
